import Mathlib

/-
Verification of the xai-go client library core against its specification.
The Go sources are shallowly embedded: pure functions become Lean functions,
stateful code becomes explicit state passing, machine integers become Nat/Int,
fallible results become Option/Except, and nil pointers become Option.
-/

set_option autoImplicit false

namespace Xai

/-- Error categories of the client library (source: errors.go, type
`ErrorCode` with its ten constants). -/
inductive ErrorCode where
  | ErrUnknown
  | ErrAuth
  | ErrRateLimit
  | ErrInvalidRequest
  | ErrNotFound
  | ErrServerError
  | ErrUnavailable
  | ErrTimeout
  | ErrCanceled
  | ErrResourceExhausted
deriving DecidableEq

/-- Structured API error (source: errors.go, struct `Error`) without the
`Cause` field; the unwrap chain, where it matters, is carried by `GoError`
below. `RetryAfter` durations are integer nanoseconds; `GRPCCode` is the
numeric value of the gRPC status code (a uint32 in Go; no arithmetic is ever
performed on it, so Nat is a faithful carrier). -/
structure Error where
  Code : ErrorCode
  Message : String
  RetryAfter : Int
  GRPCCode : Nat
deriving DecidableEq

/-- Source: errors.go, `(*Error).IsRetryable`: a switch on the `Code` field
alone. -/
def Error.IsRetryable (e : Error) : Bool :=
  match e.Code with
  | .ErrRateLimit | .ErrUnavailable | .ErrTimeout | .ErrServerError => true
  | _ => false

/-- Argument of `FromGRPCError`, a non-nil Go error as seen through
`status.FromError`: `statusErr code message` is an error carrying a gRPC
status (the `ok = true` case); `nonStatus message` is any other error, for
which `status.FromError` reports code Unknown with `ok = false` (per the grpc
package documentation, and asserted by the repository test
`TestFromGRPCError/non-grpc error`). Status codes are their numeric values:
OK = 0, Canceled = 1, Unknown = 2, InvalidArgument = 3, DeadlineExceeded = 4,
NotFound = 5, AlreadyExists = 6, PermissionDenied = 7, ResourceExhausted = 8,
FailedPrecondition = 9, Aborted = 10, OutOfRange = 11, Unimplemented = 12,
Internal = 13, Unavailable = 14, DataLoss = 15, Unauthenticated = 16. -/
inductive GRPCInput where
  | statusErr (code : Nat) (message : String)
  | nonStatus (message : String)
deriving DecidableEq

/-- Source: errors.go, `FromGRPCError`, body after the nil check. The
`nonStatus` arm is the `!ok` early return (Code `ErrUnknown`, `GRPCCode`
left at its zero value 0). The numeric match arms mirror the
`switch st.Code()` arms, in source order, using the code numbering listed on
`GRPCInput`. -/
def fromGRPCErrorSome : GRPCInput → Error
  | .nonStatus m => { Code := .ErrUnknown, Message := m, RetryAfter := 0, GRPCCode := 0 }
  | .statusErr c m =>
    let base : Error := { Code := .ErrUnknown, Message := m, RetryAfter := 0, GRPCCode := c }
    match c with
    | 16 => { base with Code := .ErrAuth, Message := "authentication failed: " ++ m }
    | 7 => { base with Code := .ErrAuth, Message := "permission denied: " ++ m }
    | 8 => { base with Code := .ErrRateLimit, Message := "rate limit exceeded: " ++ m }
    | 3 => { base with Code := .ErrInvalidRequest }
    | 5 => { base with Code := .ErrNotFound }
    | 13 => { base with Code := .ErrServerError }
    | 14 => { base with Code := .ErrUnavailable }
    | 4 => { base with Code := .ErrTimeout }
    | 1 => { base with Code := .ErrCanceled }
    | 9 => { base with Code := .ErrInvalidRequest }
    | 10 => { base with Code := .ErrUnavailable }
    | 11 => { base with Code := .ErrInvalidRequest }
    | 12 => { base with Code := .ErrInvalidRequest, Message := "method not implemented: " ++ m }
    | 15 => { base with Code := .ErrServerError }
    | _ => base

/-- Source: errors.go, `FromGRPCError`: a nil argument maps to a nil result,
any other argument goes through the status switch. -/
def FromGRPCError (err : Option GRPCInput) : Option Error :=
  err.map fromGRPCErrorSome

/-- Go error values as relevant to `WrapError` (source: errors.go): an
`*Error` together with its `Cause` as unwrap target, a plain error with no
unwrap support, or a wrapper produced by fmt.Errorf with a `%w` verb. -/
inductive GoError where
  | xaiE (e : Error) (cause : Option GoError)
  | plain (message : String)
  | wrapf (message : String) (cause : GoError)

/-- Semantics of `errors.As(err, &xaiErr)` at target type `*Error`: walk the
unwrap chain and return the first `*Error` found, together with its `Cause`
field. -/
def errorsAsXai : GoError → Option (Error × Option GoError)
  | .xaiE e cause => some (e, cause)
  | .plain _ => none
  | .wrapf _ cause => errorsAsXai cause

/-- Source: errors.go, `WrapError`: nil passes through; an error whose chain
holds an `*Error` is rebuilt with a prefixed message and the same `Code`,
`Cause`, `RetryAfter` and `GRPCCode`; anything else is wrapped by
fmt.Errorf. -/
def WrapError (err : Option GoError) (message : String) : Option GoError :=
  match err with
  | none => none
  | some e =>
    match errorsAsXai e with
    | some (x, cause) =>
        some (.xaiE { Code := x.Code, Message := message ++ ": " ++ x.Message,
                      RetryAfter := x.RetryAfter, GRPCCode := x.GRPCCode } cause)
    | none => some (.wrapf message e)

/-- The gRPC status codes named in the FromGRPCError switch (every code with
an explicit case arm). -/
def mappedGRPCCodes : List Nat := [1, 3, 4, 5, 7, 8, 9, 10, 11, 12, 13, 14, 15, 16]

/-- Wire tool-call kind tags (proto enum `ToolCallType` as used by
`toolCallFromProto`). -/
inductive ProtoToolCallType where
  | clientSideTool
  | webSearchTool
  | xSearchTool
  | codeExecutionTool
  | collectionsSearchTool
  | mcpTool
  | attachmentSearchTool
  | invalidType
deriving DecidableEq

/-- Wire tool-call status (proto enum `ToolCallStatus` as used by
`toolCallFromProto`). -/
inductive ProtoToolCallStatus where
  | invalidStatus
  | pending
  | completed
  | failed
deriving DecidableEq

/-- Wire function-call payload (proto `FunctionCall`: name and the JSON
argument text carried by this fragment). -/
structure ProtoFunctionCall where
  Name : String
  Arguments : String
deriving DecidableEq

/-- Wire tool call (proto `ToolCall`). Optional proto fields are Option;
repeated wire messages are non-null, so the nil guard at the top of
`toolCallFromProto` is unreachable for list elements and is dropped here. -/
structure ProtoToolCall where
  Id : String
  CallType : ProtoToolCallType
  Status : ProtoToolCallStatus
  ErrorMessage : Option String
  Function : Option ProtoFunctionCall
deriving DecidableEq

/-- Client- vs server-side tool call (source: tool code, `ToolCallType`). -/
inductive ToolCallType where
  | client
  | server
deriving DecidableEq

/-- Tool-call lifecycle status (source: tool code, `ToolCallStatus`). -/
inductive ToolCallStatus where
  | pending
  | completed
  | failed
deriving DecidableEq

/-- Function call surfaced to the caller (source: tool code,
`FunctionCall`). -/
structure FunctionCall where
  Name : String
  Arguments : String
deriving DecidableEq

/-- Tool call surfaced to the caller (source: tool code, `ToolCallInfo`).
The Go `ErrorMessage` field is a plain string left empty when the proto
field is absent. -/
structure ToolCallInfo where
  ID : String
  CallType : ToolCallType
  Status : ToolCallStatus
  ErrorMessage : String
  Function : Option FunctionCall
deriving DecidableEq

/-- Source: tool code, `toolCallFromProto`: type tag switch (client-side to
client, the six server tool kinds to server, default client), status switch
(completed and failed verbatim, default pending), optional error message and
function payload copied as is. -/
def toolCallFromProto (tc : ProtoToolCall) : ToolCallInfo :=
  { ID := tc.Id
    CallType :=
      match tc.CallType with
      | .clientSideTool => .client
      | .webSearchTool | .xSearchTool | .codeExecutionTool
      | .collectionsSearchTool | .mcpTool | .attachmentSearchTool => .server
      | _ => .client
    Status :=
      match tc.Status with
      | .completed => .completed
      | .failed => .failed
      | _ => .pending
    ErrorMessage := tc.ErrorMessage.getD ""
    Function := tc.Function.map (fun fn => { Name := fn.Name, Arguments := fn.Arguments }) }

/-- Wire finish reason (proto enum `FinishReason`). -/
inductive ProtoFinishReason where
  | invalidReason
  | reasonStop
  | reasonMaxLen
  | reasonMaxContext
  | reasonToolCalls
deriving DecidableEq

/-- Source: chat.go, `finishReasonFromProto`; the client-side `FinishReason`
type is a string. -/
def finishReasonFromProto : ProtoFinishReason → String
  | .reasonStop => "stop"
  | .reasonMaxLen | .reasonMaxContext => "length"
  | .reasonToolCalls => "tool_calls"
  | _ => ""

/-- Wire usage message (proto `SamplingUsage`); int32 counters become Int. -/
structure ProtoUsage where
  PromptTokens : Int
  CompletionTokens : Int
  TotalTokens : Int
  ReasoningTokens : Int
  CachedPromptTextTokens : Int
  PromptTextTokens : Int
  PromptImageTokens : Int
deriving DecidableEq

/-- Token usage surfaced to the caller (source: chat.go, `Usage`). -/
structure Usage where
  PromptTokens : Int
  CompletionTokens : Int
  TotalTokens : Int
  ReasoningTokens : Int
  CachedPromptTokens : Int
  PromptTextTokens : Int
  PromptImageTokens : Int
deriving DecidableEq

/-- Source: chat.go, `usageFromProto`: nil maps to the zero struct, otherwise
a field-by-field copy (the client `CachedPromptTokens` reads the proto
`CachedPromptTextTokens`). -/
def usageFromProto : Option ProtoUsage → Usage
  | none =>
    { PromptTokens := 0, CompletionTokens := 0, TotalTokens := 0, ReasoningTokens := 0,
      CachedPromptTokens := 0, PromptTextTokens := 0, PromptImageTokens := 0 }
  | some u =>
    { PromptTokens := u.PromptTokens, CompletionTokens := u.CompletionTokens,
      TotalTokens := u.TotalTokens, ReasoningTokens := u.ReasoningTokens,
      CachedPromptTokens := u.CachedPromptTextTokens, PromptTextTokens := u.PromptTextTokens,
      PromptImageTokens := u.PromptImageTokens }

/-- Wire delta payload of one streaming output (proto `Delta`): incremental
content, incremental reasoning content, and the tool-call fragments carried
by this chunk. -/
structure ProtoDelta where
  Content : String
  ReasoningContent : String
  ToolCalls : List ProtoToolCall
deriving DecidableEq

/-- Wire output entry of one streaming chunk (proto `CompletionOutputChunk`):
finish reason plus an optional delta. -/
structure ProtoOutputChunk where
  FinishReason : ProtoFinishReason
  Delta : Option ProtoDelta
deriving DecidableEq

/-- Wire streaming chunk (proto `GetChatCompletionChunk`). -/
structure ProtoChunk where
  Id : String
  Citations : List String
  Usage : Option ProtoUsage
  Model : String
  Outputs : List ProtoOutputChunk
deriving DecidableEq

/-- Streaming chunk surfaced to the caller (source: chat.go, `ChatChunk`). -/
structure ChatChunk where
  ID : String
  Delta : String
  ReasoningDelta : String
  ToolCalls : List ToolCallInfo
  FinishReason : String
  Citations : List String
  Usage : Usage
  Model : String
deriving DecidableEq

/-- Source: chat.go, `chunkFromProto`: id, citations, usage and model are
copied, then the first output (if any) contributes the finish reason and, if
a delta is present, the content deltas and the tool-call fragments, each
converted by `toolCallFromProto` in order. -/
def chunkFromProto (chunk : ProtoChunk) : ChatChunk :=
  let base : ChatChunk :=
    { ID := chunk.Id, Delta := "", ReasoningDelta := "", ToolCalls := [], FinishReason := "",
      Citations := chunk.Citations, Usage := usageFromProto chunk.Usage, Model := chunk.Model }
  match chunk.Outputs with
  | [] => base
  | output :: _ =>
    let withReason := { base with FinishReason := finishReasonFromProto output.FinishReason }
    match output.Delta with
    | none => withReason
    | some d =>
      { withReason with
          Delta := d.Content
          ReasoningDelta := d.ReasoningContent
          ToolCalls := d.ToolCalls.map toolCallFromProto }

/-- Reconciled view of a streamed tool call, as the claim defines it: the
last `ToolCallInfo` produced for the given call id across the emitted
chunks, keyed by call id. -/
def reconciledToolCall (chunks : List ChatChunk) (id : String) : Option ToolCallInfo :=
  ((chunks.flatMap fun c => c.ToolCalls).filter fun tc => tc.ID == id).getLast?

/-- First streamed fragment of the C3 scenario: tool call tc_1, pending,
with the partial argument text. -/
def c3Fragment1 : ProtoChunk :=
  { Id := "resp_1", Citations := [], Usage := none, Model := "",
    Outputs := [
      { FinishReason := .invalidReason,
        Delta := some
          { Content := "", ReasoningContent := "",
            ToolCalls := [
              { Id := "tc_1", CallType := .clientSideTool, Status := .pending,
                ErrorMessage := none,
                Function := some { Name := "f", Arguments := "\x7b\"a\":" } }] } }] }

/-- Second streamed fragment of the C3 scenario: tool call tc_1, completed,
with the full argument text. -/
def c3Fragment2 : ProtoChunk :=
  { Id := "resp_1", Citations := [], Usage := none, Model := "",
    Outputs := [
      { FinishReason := .reasonToolCalls,
        Delta := some
          { Content := "", ReasoningContent := "",
            ToolCalls := [
              { Id := "tc_1", CallType := .clientSideTool, Status := .completed,
                ErrorMessage := none,
                Function := some { Name := "f", Arguments := "\x7b\"a\":1,\"b\":2\x7d" } }] } }] }

/-- One item produced by the transport stream: either a chunk message or a
gRPC error from `Recv`; an exhausted list models the io.EOF tail. -/
inductive RecvItem where
  | chunk (c : ProtoChunk)
  | failed (g : GRPCInput)

/-- Iterator state (source: chat.go, `ChunkStream`): the remaining transport
items and the stored sticky error. -/
structure ChunkStream where
  items : List RecvItem
  err : Option Error

/-- Result of one pull on the stream: a chunk, the distinguished io.EOF
signal, or an error. -/
inductive PullResult where
  | chunk (c : ChatChunk)
  | eof
  | failed (e : Error)

/-- Source: chat.go, `(*ChunkStream).Next`: a stored error is returned
unchanged without touching the transport; otherwise `Recv` is polled, io.EOF
is passed through without being stored, an error is translated by
FromGRPCError, stored in `s.err` and returned, and a message is converted by
`chunkFromProto`. -/
def ChunkStream.Next (s : ChunkStream) : PullResult × ChunkStream :=
  match s.err with
  | some e => (.failed e, s)
  | none =>
    match s.items with
    | [] => (.eof, s)
    | .chunk c :: rest => (.chunk (chunkFromProto c), { s with items := rest })
    | .failed g :: rest =>
      let e := fromGRPCErrorSome g
      (.failed e, { items := rest, err := some e })

/-- State of the stream after n further pulls. -/
def ChunkStream.pullN (s : ChunkStream) : Nat → ChunkStream
  | 0 => s
  | n + 1 => ((ChunkStream.pullN s n).Next).2

/-- Blocking chat response surfaced to the caller (source: chat.go,
`ChatResponse`); the Created timestamp is modelled as integer unix time. -/
structure ChatResponse where
  ID : String
  Content : String
  ReasoningContent : String
  ToolCalls : List ToolCallInfo
  FinishReason : String
  Citations : List String
  Usage : Usage
  Model : String
  Created : Int
  SystemFingerprint : String
deriving DecidableEq

/-- Source: chat.go, constant `DeferredStatusPending`; the Go
`DeferredStatus` type is a string. -/
def DeferredStatusPending : String := "pending"

/-- Source: chat.go, constant `DeferredStatusCompleted`. -/
def DeferredStatusCompleted : String := "completed"

/-- Source: chat.go, constant `DeferredStatusFailed`. -/
def DeferredStatusFailed : String := "failed"

/-- Result of one deferred poll (source: chat.go, `DeferredResponse`). -/
structure DeferredResponse where
  Status : String
  Response : Option ChatResponse
  Error : String
deriving DecidableEq

/-- Outcome of the n-th `GetDeferred` call as observed by `WaitForDeferred`:
either the RPC failed (GetDeferred then returns the error translated by
FromGRPCError) or it produced a `DeferredResponse`. -/
inductive PollReply where
  | rpcFailed (g : GRPCInput)
  | reply (d : DeferredResponse)

/-- Source: chat.go, `(*Client).WaitForDeferred`, with wall-clock time made
explicit in abstract units. `polls n` is the outcome of the (n+1)-th poll;
`cancelAt` is the absolute time at which the callers context is cancelled,
if ever. Polls are instantaneous; each loop iteration runs while
`t < deadline`, and the inter-poll `select` either completes the sleep
(advancing time by `pollInterval`) or, when the cancellation signal fires
strictly before the timer, returns at the cancellation time with
`FromGRPCError(ctx.Err())` — `ctx.Err()` is `context.Canceled`, an error
that carries no gRPC status, hence the `.nonStatus` input. `fuel` bounds the
recursion of `waitLoop`; a `none` result of `waitLoop` means the fuel ran
out before the loop did (never the case in the theorems below). Results
carry the absolute return time. `waitStep` is one iteration body: poll
outcome handling and the select; its `none` result means the loop goes on
sleeping into the next iteration. -/
def waitStep (reply : PollReply) (cancelAt : Option Nat) (pollInterval t : Nat) :
    Option (Except Error (Option ChatResponse) × Nat) :=
  match reply with
  | .rpcFailed g => some (.error (fromGRPCErrorSome g), t)
  | .reply d =>
    if d.Status = DeferredStatusCompleted then
      some (.ok d.Response, t)
    else if d.Status = DeferredStatusFailed then
      some (.error { Code := .ErrServerError,
                     Message := "deferred completion failed: " ++ d.Error,
                     RetryAfter := 0, GRPCCode := 0 }, t)
    else
      match cancelAt with
      | some c =>
        if c < t + pollInterval then
          some (.error (fromGRPCErrorSome (.nonStatus "context canceled")), max t c)
        else none
      | none => none

/-- Recursion of the polling loop: while time is before the deadline, run one
iteration body; when it does not return, sleep and continue. -/
def waitLoop (polls : Nat → PollReply) (cancelAt : Option Nat)
    (pollInterval deadline : Nat) :
    Nat → Nat → Nat → Option (Except Error (Option ChatResponse) × Nat)
  | 0, _, _ => none
  | fuel + 1, n, t =>
    if t < deadline then
      match waitStep (polls n) cancelAt pollInterval t with
      | some r => some r
      | none => waitLoop polls cancelAt pollInterval deadline fuel (n + 1) (t + pollInterval)
    else
      some (.error { Code := .ErrTimeout,
                     Message := "timeout waiting for deferred completion",
                     RetryAfter := 0, GRPCCode := 0 }, t)

/-- Source: chat.go, `(*Client).WaitForDeferred`: the deadline is
`now + timeout` with the start of the call as time zero. Fuel `timeout + 1`
is enough for every positive poll interval, because each iteration either
returns or advances time by at least one unit while time stays below the
deadline. -/
def WaitForDeferred (polls : Nat → PollReply) (cancelAt : Option Nat)
    (pollInterval timeout : Nat) : Option (Except Error (Option ChatResponse) × Nat) :=
  waitLoop polls cancelAt pollInterval timeout (timeout + 1) 0 0

/-- Conversation roles (proto enum `MessageRole` as used by the message
builders in chat_request.go). -/
inductive MessageRole where
  | roleSystem
  | roleUser
  | roleAssistant
  | roleTool
  | roleDeveloper
deriving DecidableEq

/-- One content part of a message (proto `Content`: a text part or an image
URL part). -/
inductive Content where
  | text (s : String)
  | imageUrl (url : String)
deriving DecidableEq

/-- Wire message (proto `Message`). -/
structure Message where
  Role : MessageRole
  Content : List Content
  ToolCallId : Option String
deriving DecidableEq

/-- Tool descriptors (source: tool code): the `Tool` interface with its seven
implementations, collapsed to a closed union carrying each variant's
configured data. `FunctionTool.Parameters` is the optional raw JSON schema
text (nil when never set). Float-free, so all fields carry over directly. -/
inductive Tool where
  | functionTool (Name Description : String) (Parameters : Option String) (Strict : Bool)
  | webSearchTool
  | xSearchTool
  | codeExecutionTool
  | collectionsSearchTool (CollectionIds : List String)
  | attachmentSearchTool (Limit : Option Int)
  | mcpTool (ServerLabel ServerUrl : String)
deriving DecidableEq

/-- Wire function descriptor (proto `Function`); `Parameters` defaults to
the empty string when the tool never set a schema. -/
structure WireFunction where
  Name : String
  Description : String
  Parameters : String
  Strict : Bool
deriving DecidableEq

/-- Wire tool descriptor (proto `Tool`, a oneof over the tool kinds). -/
inductive WireTool where
  | functionTool (f : WireFunction)
  | webSearchTool
  | xSearchTool
  | codeExecutionTool
  | collectionsSearchTool (CollectionIds : List String)
  | attachmentSearchTool (Limit : Option Int)
  | mcpTool (ServerLabel ServerUrl : String)
deriving DecidableEq

/-- Source: tool code, the per-variant `toProto` methods: each variant
serializes its own configuration; a function tool copies its parameter text
only when it was set (wire default empty string otherwise). -/
def Tool.toProto : Tool → WireTool
  | .functionTool n d p s => .functionTool { Name := n, Description := d,
                                             Parameters := p.getD "", Strict := s }
  | .webSearchTool => .webSearchTool
  | .xSearchTool => .xSearchTool
  | .codeExecutionTool => .codeExecutionTool
  | .collectionsSearchTool ids => .collectionsSearchTool ids
  | .attachmentSearchTool lim => .attachmentSearchTool lim
  | .mcpTool label url => .mcpTool label url

/-- Tool-choice mode (source: tool code, `ToolChoice`: Auto = 0, None = 1,
Required = 2). -/
inductive ToolChoice where
  | auto
  | noTools
  | required
deriving DecidableEq

/-- Wire tool mode (proto `ToolMode`). -/
inductive WireToolMode where
  | modeAuto
  | modeNone
  | modeRequired
deriving DecidableEq

/-- Source: tool code, `(ToolChoice).toProto`: None and Required map to
their modes, everything else (the default arm) to Auto. -/
def ToolChoice.toProto : ToolChoice → WireToolMode
  | .noTools => .modeNone
  | .required => .modeRequired
  | _ => .modeAuto

/-- Source: chat_request.go, constant `ReasoningEffortLow`; the Go
`ReasoningEffort` type is an int, so the carrier here is Int. -/
def ReasoningEffortLow : Int := 1

/-- Source: chat_request.go, constant `ReasoningEffortMedium`. -/
def ReasoningEffortMedium : Int := 2

/-- Source: chat_request.go, constant `ReasoningEffortHigh`. -/
def ReasoningEffortHigh : Int := 3

/-- Wire reasoning effort (proto enum `ReasoningEffort`). -/
inductive WireReasoningEffort where
  | invalidEffort
  | effortLow
  | effortMedium
  | effortHigh
deriving DecidableEq

/-- Source: chat_request.go, `(ReasoningEffort).toProto`: the three named
levels map to their wire values, any other int to the invalid effort. -/
def reasoningEffortToProto (r : Int) : WireReasoningEffort :=
  if r = ReasoningEffortLow then .effortLow
  else if r = ReasoningEffortMedium then .effortMedium
  else if r = ReasoningEffortHigh then .effortHigh
  else .invalidEffort

/-- Source: chat_request.go, constant `ResponseFormatText`; the Go
`ResponseFormat` type is an int. -/
def ResponseFormatText : Int := 0

/-- Source: chat_request.go, constant `ResponseFormatJSON`. -/
def ResponseFormatJSON : Int := 1

/-- Wire response format type (proto enum `FormatType`). -/
inductive FormatType where
  | formatText
  | formatJsonObject
deriving DecidableEq

/-- Wire include options (proto enum `IncludeOption`). -/
inductive IncludeOption where
  | webSearchCallOutput
  | xSearchCallOutput
  | codeExecutionCallOutput
  | inlineCitations
  | verboseStreaming
deriving DecidableEq

/-- Builder state (source: chat_request.go, struct `ChatRequest`). Pointer
fields become Option, slices become lists, float32 sampling knobs are
modelled as exact rationals (the builder only stores and copies them;
no arithmetic is performed). Defaults are the Go zero values, as produced
by `NewChatRequest`. -/
structure ChatRequest where
  messages : List Message := []
  model : String := ""
  user : String := ""
  maxTokens : Option Int := none
  seed : Option Int := none
  stop : List String := []
  temperature : Option Rat := none
  topP : Option Rat := none
  logprobs : Bool := false
  topLogprobs : Option Int := none
  tools : List Tool := []
  toolChoice : Option ToolChoice := none
  responseFormat : Option Int := none
  frequencyPenalty : Option Rat := none
  presencePenalty : Option Rat := none
  reasoningEffort : Option Int := none
  parallelToolCalls : Option Bool := none
  storeMessages : Bool := false
  maxTurns : Option Int := none
  includeOptions : List IncludeOption := []
  previousResponseID : String := ""
  useEncryptedContent : Bool := false
deriving DecidableEq

/-- Source: chat_request.go, `NewChatRequest`: the zero-valued builder. -/
def NewChatRequest : ChatRequest := {}

/-- Source: chat_request.go, `(*ChatRequest).SystemMessage`. -/
def ChatRequest.SystemMessage (r : ChatRequest) (text : String) : ChatRequest :=
  { r with messages := r.messages ++
      [{ Role := .roleSystem, Content := [.text text], ToolCallId := none }] }

/-- Source: chat_request.go, `(*ChatRequest).UserMessage`. -/
def ChatRequest.UserMessage (r : ChatRequest) (text : String) : ChatRequest :=
  { r with messages := r.messages ++
      [{ Role := .roleUser, Content := [.text text], ToolCallId := none }] }

/-- Source: chat_request.go, `(*ChatRequest).UserWithImage`. -/
def ChatRequest.UserWithImage (r : ChatRequest) (text imageURL : String) : ChatRequest :=
  { r with messages := r.messages ++
      [{ Role := .roleUser, Content := [.text text, .imageUrl imageURL], ToolCallId := none }] }

/-- Source: chat_request.go, `(*ChatRequest).AssistantMessage`. -/
def ChatRequest.AssistantMessage (r : ChatRequest) (text : String) : ChatRequest :=
  { r with messages := r.messages ++
      [{ Role := .roleAssistant, Content := [.text text], ToolCallId := none }] }

/-- Source: chat_request.go, `(*ChatRequest).ToolResult`. -/
def ChatRequest.ToolResult (r : ChatRequest) (toolCallID result : String) : ChatRequest :=
  { r with messages := r.messages ++
      [{ Role := .roleTool, Content := [.text result], ToolCallId := some toolCallID }] }

/-- Source: chat_request.go, `(*ChatRequest).DeveloperMessage`. -/
def ChatRequest.DeveloperMessage (r : ChatRequest) (text : String) : ChatRequest :=
  { r with messages := r.messages ++
      [{ Role := .roleDeveloper, Content := [.text text], ToolCallId := none }] }

/-- Source: chat_request.go, `(*ChatRequest).WithModel`. -/
def ChatRequest.WithModel (r : ChatRequest) (model : String) : ChatRequest :=
  { r with model := model }

/-- Source: chat_request.go, `(*ChatRequest).WithUser`. -/
def ChatRequest.WithUser (r : ChatRequest) (user : String) : ChatRequest :=
  { r with user := user }

/-- Source: chat_request.go, `(*ChatRequest).WithMaxTokens`. -/
def ChatRequest.WithMaxTokens (r : ChatRequest) (n : Int) : ChatRequest :=
  { r with maxTokens := some n }

/-- Source: chat_request.go, `(*ChatRequest).WithSeed`. -/
def ChatRequest.WithSeed (r : ChatRequest) (seed : Int) : ChatRequest :=
  { r with seed := some seed }

/-- Source: chat_request.go, `(*ChatRequest).WithStop`: replaces the stop
sequences. -/
def ChatRequest.WithStop (r : ChatRequest) (sequences : List String) : ChatRequest :=
  { r with stop := sequences }

/-- Source: chat_request.go, `(*ChatRequest).WithTemperature`. -/
def ChatRequest.WithTemperature (r : ChatRequest) (t : Rat) : ChatRequest :=
  { r with temperature := some t }

/-- Source: chat_request.go, `(*ChatRequest).WithTopP`. -/
def ChatRequest.WithTopP (r : ChatRequest) (p : Rat) : ChatRequest :=
  { r with topP := some p }

/-- Source: chat_request.go, `(*ChatRequest).WithLogprobs`: enables the flag
and sets the top-logprob count. -/
def ChatRequest.WithLogprobs (r : ChatRequest) (topLogprobs : Int) : ChatRequest :=
  { r with logprobs := true, topLogprobs := some topLogprobs }

/-- Source: chat_request.go, `(*ChatRequest).AddTool`. -/
def ChatRequest.AddTool (r : ChatRequest) (tool : Tool) : ChatRequest :=
  { r with tools := r.tools ++ [tool] }

/-- Source: chat_request.go, `(*ChatRequest).AddTools`. -/
def ChatRequest.AddTools (r : ChatRequest) (tools : List Tool) : ChatRequest :=
  { r with tools := r.tools ++ tools }

/-- Source: chat_request.go, `(*ChatRequest).WithToolChoice`. -/
def ChatRequest.WithToolChoice (r : ChatRequest) (choice : ToolChoice) : ChatRequest :=
  { r with toolChoice := some choice }

/-- Source: chat_request.go, `(*ChatRequest).WithResponseFormat`. -/
def ChatRequest.WithResponseFormat (r : ChatRequest) (format : Int) : ChatRequest :=
  { r with responseFormat := some format }

/-- Source: chat_request.go, `(*ChatRequest).WithFrequencyPenalty`. -/
def ChatRequest.WithFrequencyPenalty (r : ChatRequest) (p : Rat) : ChatRequest :=
  { r with frequencyPenalty := some p }

/-- Source: chat_request.go, `(*ChatRequest).WithPresencePenalty`. -/
def ChatRequest.WithPresencePenalty (r : ChatRequest) (p : Rat) : ChatRequest :=
  { r with presencePenalty := some p }

/-- Source: chat_request.go, `(*ChatRequest).WithReasoningEffort`. -/
def ChatRequest.WithReasoningEffort (r : ChatRequest) (effort : Int) : ChatRequest :=
  { r with reasoningEffort := some effort }

/-- Source: chat_request.go, `(*ChatRequest).WithParallelToolCalls`. -/
def ChatRequest.WithParallelToolCalls (r : ChatRequest) (enabled : Bool) : ChatRequest :=
  { r with parallelToolCalls := some enabled }

/-- Source: chat_request.go, `(*ChatRequest).WithStoreMessages`. -/
def ChatRequest.WithStoreMessages (r : ChatRequest) (store : Bool) : ChatRequest :=
  { r with storeMessages := store }

/-- Source: chat_request.go, `(*ChatRequest).WithPreviousResponseId`. -/
def ChatRequest.WithPreviousResponseId (r : ChatRequest) (id : String) : ChatRequest :=
  { r with previousResponseID := id }

/-- Source: chat_request.go, `(*ChatRequest).WithEncryptedContent`. -/
def ChatRequest.WithEncryptedContent (r : ChatRequest) (enabled : Bool) : ChatRequest :=
  { r with useEncryptedContent := enabled }

/-- Source: chat_request.go, `(*ChatRequest).WithMaxTurns`. -/
def ChatRequest.WithMaxTurns (r : ChatRequest) (n : Int) : ChatRequest :=
  { r with maxTurns := some n }

/-- Source: chat_request.go, `(*ChatRequest).IncludeInlineCitations` and its
four sibling Include methods, generalized over the appended option. -/
def ChatRequest.appendInclude (r : ChatRequest) (opt : IncludeOption) : ChatRequest :=
  { r with includeOptions := r.includeOptions ++ [opt] }

/-- Wire request (proto `GetCompletionsRequest`), restricted to the fields
`Build` assigns. Optional wire scalars are Option (proto3 optional fields,
nil when never assigned). -/
structure GetCompletionsRequest where
  Messages : List Message
  Model : String
  User : String
  Stop : List String
  Logprobs : Bool
  StoreMessages : Bool
  Include : List IncludeOption
  UseEncryptedContent : Bool
  PreviousResponseId : Option String
  MaxTokens : Option Int
  Seed : Option Int
  Temperature : Option Rat
  TopP : Option Rat
  TopLogprobs : Option Int
  FrequencyPenalty : Option Rat
  PresencePenalty : Option Rat
  ReasoningEffort : Option WireReasoningEffort
  ParallelToolCalls : Option Bool
  MaxTurns : Option Int
  Tools : List WireTool
  ToolChoice : Option WireToolMode
  ResponseFormat : Option FormatType
deriving DecidableEq

/-- Source: chat_request.go, `(*ChatRequest).Build`. Statement-by-statement,
the Go body only reads the receiver and writes the local wire value `req`;
the embedding returns the wire request together with the (unchanged) builder
state to make that explicit. Each Go conditional assignment of an optional
pointer field into the initially-nil wire field collapses to a plain copy of
the Option; the model default substitution, the previous-response-id guard,
the tools append loop, the tool-choice and reasoning-effort conversions and
the response-format switch are reproduced field by field. -/
def ChatRequest.Build (r : ChatRequest) (defaultModel : String) :
    GetCompletionsRequest × ChatRequest :=
  ({ Messages := r.messages
     Model := if r.model = "" then defaultModel else r.model
     User := r.user
     Stop := r.stop
     Logprobs := r.logprobs
     StoreMessages := r.storeMessages
     Include := r.includeOptions
     UseEncryptedContent := r.useEncryptedContent
     PreviousResponseId := if r.previousResponseID ≠ "" then some r.previousResponseID else none
     MaxTokens := r.maxTokens
     Seed := r.seed
     Temperature := r.temperature
     TopP := r.topP
     TopLogprobs := r.topLogprobs
     FrequencyPenalty := r.frequencyPenalty
     PresencePenalty := r.presencePenalty
     ReasoningEffort := r.reasoningEffort.map reasoningEffortToProto
     ParallelToolCalls := r.parallelToolCalls
     MaxTurns := r.maxTurns
     Tools := r.tools.map Tool.toProto
     ToolChoice := r.toolChoice.map ToolChoice.toProto
     ResponseFormat := r.responseFormat.map fun rf =>
       if rf = ResponseFormatJSON then .formatJsonObject else .formatText }, r)

/-- Wire modality (proto enum `Modality`). -/
inductive ProtoModality where
  | invalidModality
  | text
  | image
  | embedding
deriving DecidableEq

/-- Source: models code, `modalityFromProto`; the client `Modality` type is
a string, with the empty string for unrecognized values. -/
def modalityFromProto : ProtoModality → String
  | .text => "text"
  | .image => "image"
  | .embedding => "embedding"
  | _ => ""

/-- Token pricing in currency units (source: models code, `Pricing`). The Go
field is a float64; the builder only divides an integer wire field by 10000,
which is modelled as exact rational division. -/
structure Pricing where
  PerMillionTokens : Rat
deriving DecidableEq

/-- Catalog entry surfaced to the caller (source: models code,
`LanguageModel`), with the Created timestamp as integer unix time. -/
structure LanguageModel where
  Name : String
  Aliases : List String
  Version : String
  InputModalities : List String
  OutputModalities : List String
  MaxPromptLength : Int
  Created : Int
  SystemFingerprint : String
  PromptTextPricing : Pricing
  PromptImagePricing : Pricing
  CachedPromptPricing : Pricing
  CompletionPricing : Pricing
  SearchPricing : Pricing
deriving DecidableEq

/-- Wire catalog entry (proto `LanguageModel`), restricted to the fields
`languageModelFromProto` reads; the raw price fields are fixed-point
integers in hundredths of a cent per million tokens. -/
structure ProtoLanguageModel where
  Name : String
  Aliases : List String
  Version : String
  MaxPromptLength : Int
  SystemFingerprint : String
  Created : Option Int
  InputModalities : List ProtoModality
  OutputModalities : List ProtoModality
  PromptTextTokenPrice : Int
  PromptImageTokenPrice : Int
  CachedPromptTokenPrice : Int
  CompletionTextTokenPrice : Int
  SearchPrice : Int
deriving DecidableEq

/-- Source: models code, `languageModelFromProto`: plain copies, the
optional Created timestamp, the modality lists with unrecognized values
dropped, and the five price conversions, each dividing the raw fixed-point
wire field by 10000. -/
def languageModelFromProto (m : ProtoLanguageModel) : LanguageModel :=
  { Name := m.Name
    Aliases := m.Aliases
    Version := m.Version
    MaxPromptLength := m.MaxPromptLength
    SystemFingerprint := m.SystemFingerprint
    Created := m.Created.getD 0
    InputModalities :=
      (m.InputModalities.map modalityFromProto).filter fun mm => mm ≠ ""
    OutputModalities :=
      (m.OutputModalities.map modalityFromProto).filter fun mm => mm ≠ ""
    PromptTextPricing := { PerMillionTokens := (m.PromptTextTokenPrice : Rat) / 10000 }
    PromptImagePricing := { PerMillionTokens := (m.PromptImageTokenPrice : Rat) / 10000 }
    CachedPromptPricing := { PerMillionTokens := (m.CachedPromptTokenPrice : Rat) / 10000 }
    CompletionPricing := { PerMillionTokens := (m.CompletionTextTokenPrice : Rat) / 10000 }
    SearchPricing := { PerMillionTokens := (m.SearchPrice : Rat) / 10000 } }

/-- C1: FromGRPCError is deterministic and total: nil maps to nil and every
non-nil input maps through `fromGRPCErrorSome`; for every status code in the
mapping table the returned `Code` is the documented kind
(Unauthenticated 16 / PermissionDenied 7 to Auth, ResourceExhausted 8 to
RateLimit, InvalidArgument 3 / FailedPrecondition 9 / OutOfRange 11 /
Unimplemented 12 to InvalidRequest, NotFound 5 to NotFound, Internal 13 /
DataLoss 15 to ServerError, Unavailable 14 / Aborted 10 to Unavailable,
DeadlineExceeded 4 to Timeout, Canceled 1 to Canceled); every status code
outside the table yields `ErrUnknown`. -/
theorem fromGRPCError_mapping :
    (FromGRPCError none = none) ∧
    (∀ g, FromGRPCError (some g) = some (fromGRPCErrorSome g)) ∧
    (∀ m, (fromGRPCErrorSome (.statusErr 16 m)).Code = .ErrAuth) ∧
    (∀ m, (fromGRPCErrorSome (.statusErr 7 m)).Code = .ErrAuth) ∧
    (∀ m, (fromGRPCErrorSome (.statusErr 8 m)).Code = .ErrRateLimit) ∧
    (∀ m, (fromGRPCErrorSome (.statusErr 3 m)).Code = .ErrInvalidRequest) ∧
    (∀ m, (fromGRPCErrorSome (.statusErr 9 m)).Code = .ErrInvalidRequest) ∧
    (∀ m, (fromGRPCErrorSome (.statusErr 11 m)).Code = .ErrInvalidRequest) ∧
    (∀ m, (fromGRPCErrorSome (.statusErr 12 m)).Code = .ErrInvalidRequest) ∧
    (∀ m, (fromGRPCErrorSome (.statusErr 5 m)).Code = .ErrNotFound) ∧
    (∀ m, (fromGRPCErrorSome (.statusErr 13 m)).Code = .ErrServerError) ∧
    (∀ m, (fromGRPCErrorSome (.statusErr 15 m)).Code = .ErrServerError) ∧
    (∀ m, (fromGRPCErrorSome (.statusErr 14 m)).Code = .ErrUnavailable) ∧
    (∀ m, (fromGRPCErrorSome (.statusErr 10 m)).Code = .ErrUnavailable) ∧
    (∀ m, (fromGRPCErrorSome (.statusErr 4 m)).Code = .ErrTimeout) ∧
    (∀ m, (fromGRPCErrorSome (.statusErr 1 m)).Code = .ErrCanceled) ∧
    (∀ c m, c ∉ mappedGRPCCodes → (fromGRPCErrorSome (.statusErr c m)).Code = .ErrUnknown) := by
  refine ⟨rfl, fun g => rfl, fun m => rfl, fun m => rfl, fun m => rfl, fun m => rfl,
    fun m => rfl, fun m => rfl, fun m => rfl, fun m => rfl, fun m => rfl, fun m => rfl,
    fun m => rfl, fun m => rfl, fun m => rfl, fun m => rfl, ?_⟩
  intro c m hc
  rcases Nat.lt_or_ge c 17 with h | h
  · interval_cases c <;> first | rfl | exact absurd (by decide) hc
  · obtain ⟨k, hk⟩ := Nat.exists_eq_add_of_le h
    subst hk
    rw [Nat.add_comm]
    rfl

/-- Witness for C1: the unmapped code AlreadyExists 6 yields ErrUnknown. -/
theorem fromGRPCError_mapping_witness :
    (fromGRPCErrorSome (.statusErr 6 "dup")).Code = .ErrUnknown :=
  fromGRPCError_mapping.2.2.2.2.2.2.2.2.2.2.2.2.2.2.2.2 6 "dup" (by decide)

/-- C2: IsRetryable is true exactly on the codes ErrRateLimit,
ErrUnavailable, ErrTimeout and ErrServerError, and depends only on the
`Code` field of the error. -/
theorem isRetryable_exactly_transient (e : Error) :
    (e.IsRetryable = true ↔
      e.Code = .ErrRateLimit ∨ e.Code = .ErrUnavailable ∨
      e.Code = .ErrTimeout ∨ e.Code = .ErrServerError) ∧
    (∀ e₂ : Error, e.Code = e₂.Code → e.IsRetryable = e₂.IsRetryable) := by
  constructor
  · obtain ⟨c, m, ra, gc⟩ := e
    cases c <;> simp [Error.IsRetryable]
  · intro e₂ h
    unfold Error.IsRetryable
    rw [h]

/-- Witness for C2: an ErrRateLimit error is retryable and an ErrAuth error
is not; two errors sharing the code ErrCanceled agree on retryability. -/
theorem isRetryable_exactly_transient_witness :
    (Error.IsRetryable { Code := .ErrRateLimit, Message := "", RetryAfter := 0, GRPCCode := 8 }
      = true) ∧
    (¬ Error.IsRetryable { Code := .ErrAuth, Message := "", RetryAfter := 0, GRPCCode := 16 }
      = true) ∧
    (Error.IsRetryable { Code := .ErrCanceled, Message := "a", RetryAfter := 0, GRPCCode := 1 } =
      Error.IsRetryable { Code := .ErrCanceled, Message := "b", RetryAfter := 7, GRPCCode := 1 }) :=
  ⟨(isRetryable_exactly_transient
      { Code := .ErrRateLimit, Message := "", RetryAfter := 0, GRPCCode := 8 }).1.mpr
        (Or.inl rfl),
   fun h => by
     have := (isRetryable_exactly_transient
       { Code := .ErrAuth, Message := "", RetryAfter := 0, GRPCCode := 16 }).1.mp h
     simp at this,
   (isRetryable_exactly_transient
      { Code := .ErrCanceled, Message := "a", RetryAfter := 0, GRPCCode := 1 }).2
        { Code := .ErrCanceled, Message := "b", RetryAfter := 7, GRPCCode := 1 } rfl⟩

/-- C3: for a stream whose two fragments both reference tool call tc_1, the
first pending with partial argument text and the second completed with the
full argument string, the reconciled ToolCallInfo for tc_1 has status
completed and carries the second fragments full argument string, not the
concatenation of the two fragments partial strings. -/
theorem reconciled_toolcall_last_fragment_wins :
    ((reconciledToolCall [chunkFromProto c3Fragment1, chunkFromProto c3Fragment2] "tc_1").map
        fun tc => (tc.Status, tc.Function.map FunctionCall.Arguments)) =
      some (.completed, some "\x7b\"a\":1,\"b\":2\x7d") ∧
    ((reconciledToolCall [chunkFromProto c3Fragment1, chunkFromProto c3Fragment2] "tc_1").bind
        fun tc => tc.Function.map FunctionCall.Arguments) ≠
      some ("\x7b\"a\":" ++ "\x7b\"a\":1,\"b\":2\x7d") := by
  exact ⟨rfl, by decide⟩

/-- Helper: a stream that has stored an error returns it unchanged without
consuming the transport. -/
theorem ChunkStream.next_of_err (s : ChunkStream) (e : Error) (h : s.err = some e) :
    s.Next = (.failed e, s) := by
  unfold ChunkStream.Next
  rw [h]

/-- Helper: a pull that returns an error leaves that error stored. -/
theorem ChunkStream.err_of_next_failed (s s₁ : ChunkStream) (e : Error)
    (h : s.Next = (.failed e, s₁)) : s₁.err = some e := by
  unfold ChunkStream.Next at h
  cases herr : s.err with
  | some e₀ =>
    rw [herr] at h
    injection h with h1 h2
    injection h1 with h1
    rw [← h2, herr, h1]
  | none =>
    rw [herr] at h
    cases hitems : s.items with
    | nil => rw [hitems] at h; exact absurd h (by simp)
    | cons i rest =>
      rw [hitems] at h
      cases i with
      | chunk c => exact absurd h (by simp)
      | failed g =>
        simp only [Prod.mk.injEq] at h
        obtain ⟨he, hs⟩ := h
        rw [← hs]
        injection he with he
        rw [he]

/-- C4: once a pull returns an error, every further pull returns that same
error and leaves the stream state (including the remaining transport items)
untouched; an exhausted transport is reported as the distinguished
end-of-stream signal with the state unchanged, so end-of-stream is never
stored as a sticky error. -/
theorem chunkStream_error_sticky (s : ChunkStream) :
    (∀ e s₁, s.Next = (.failed e, s₁) →
      ∀ n, s₁.pullN n = s₁ ∧ (s₁.pullN n).Next = (.failed e, s₁.pullN n)) ∧
    (s.err = none → s.items = [] → s.Next = (.eof, s)) := by
  constructor
  · intro e s₁ h n
    have herr : s₁.err = some e := ChunkStream.err_of_next_failed s s₁ e h
    induction n with
    | zero => exact ⟨rfl, ChunkStream.next_of_err s₁ e herr⟩
    | succ n ih =>
      obtain ⟨hfix, hnext⟩ := ih
      refine ⟨?_, ?_⟩
      · show ((s₁.pullN n).Next).2 = s₁
        rw [hnext, hfix]
      · show ((s₁.pullN (n + 1))).Next = _
        have : s₁.pullN (n + 1) = s₁ := by
          show ((s₁.pullN n).Next).2 = s₁
          rw [hnext, hfix]
        rw [this]
        exact ChunkStream.next_of_err s₁ e herr
  · intro herr hitems
    unfold ChunkStream.Next
    rw [herr, hitems]

/-- Witness for C4: a transport that fails with gRPC Internal poisons the
stream, and pulling twice more still returns the translated error with the
state fixed; an empty transport reports end-of-stream. -/
theorem chunkStream_error_sticky_witness :
    ((ChunkStream.pullN
        { items := [], err := some (fromGRPCErrorSome (.statusErr 13 "boom")) } 2).Next =
      (.failed (fromGRPCErrorSome (.statusErr 13 "boom")),
        ChunkStream.pullN
          { items := [], err := some (fromGRPCErrorSome (.statusErr 13 "boom")) } 2)) ∧
    ChunkStream.Next { items := [], err := none } =
      (.eof, { items := [], err := none }) :=
  ⟨((chunkStream_error_sticky
      { items := [.failed (.statusErr 13 "boom")], err := none }).1
      (fromGRPCErrorSome (.statusErr 13 "boom"))
      { items := [], err := some (fromGRPCErrorSome (.statusErr 13 "boom")) } rfl 2).2,
   (chunkStream_error_sticky { items := [], err := none }).2 rfl rfl⟩

/-- Helper: while a poll reports pending and the deadline has not passed,
one loop iteration just advances time by the poll interval. -/
theorem waitLoop_pending_step (polls : Nat → PollReply)
    (pollInterval deadline fuel n t : Nat)
    (hpoll : polls n = .reply { Status := DeferredStatusPending, Response := none, Error := "" })
    (ht : t < deadline) :
    waitLoop polls none pollInterval deadline (fuel + 1) n t =
      waitLoop polls none pollInterval deadline fuel (n + 1) (t + pollInterval) := by
  conv_lhs => rw [waitLoop]
  rw [if_pos ht, hpoll]
  rfl

/-- C5: with poll interval 1 and timeout 2, a deferred completion that never
leaves pending makes WaitForDeferred return the ErrTimeout error at time 2;
a poll that reports the failed status makes WaitForDeferred return an
ErrServerError error carrying the service-reported reason; the two kinds are
distinct, so the caller can always tell them apart. -/
theorem waitForDeferred_timeout_vs_failed :
    (∀ polls : Nat → PollReply,
      (∀ n, polls n =
        .reply { Status := DeferredStatusPending, Response := none, Error := "" }) →
      WaitForDeferred polls none 1 2 =
        some (.error { Code := .ErrTimeout,
                       Message := "timeout waiting for deferred completion",
                       RetryAfter := 0, GRPCCode := 0 }, 2)) ∧
    (∀ (polls : Nat → PollReply) (reason : String) (pollInterval timeout : Nat),
      polls 0 = .reply { Status := DeferredStatusFailed, Response := none, Error := reason } →
      0 < timeout →
      WaitForDeferred polls none pollInterval timeout =
        some (.error { Code := .ErrServerError,
                       Message := "deferred completion failed: " ++ reason,
                       RetryAfter := 0, GRPCCode := 0 }, 0)) ∧
    ErrorCode.ErrTimeout ≠ ErrorCode.ErrServerError := by
  refine ⟨?_, ?_, by decide⟩
  · intro polls h
    calc WaitForDeferred polls none 1 2
        = waitLoop polls none 1 2 (2 + 1) 0 0 := rfl
      _ = waitLoop polls none 1 2 2 (0 + 1) (0 + 1) :=
          waitLoop_pending_step polls 1 2 2 0 0 (h 0) (by decide)
      _ = waitLoop polls none 1 2 1 (0 + 1 + 1) (0 + 1 + 1) :=
          waitLoop_pending_step polls 1 2 1 (0 + 1) (0 + 1) (h (0 + 1)) (by decide)
      _ = some (.error { Code := .ErrTimeout,
                         Message := "timeout waiting for deferred completion",
                         RetryAfter := 0, GRPCCode := 0 }, 2) := rfl
  · intro polls reason pollInterval timeout hpoll htimeout
    obtain ⟨k, rfl⟩ : ∃ k, timeout = k + 1 := ⟨timeout - 1, by omega⟩
    show waitLoop polls none pollInterval (k + 1) (k + 1 + 1) 0 0 = _
    conv_lhs => rw [waitLoop]
    rw [if_pos (by omega), hpoll]
    rfl

/-- Witness for C5: the constant pending oracle times out at time 2, and an
oracle whose first poll reports an expired completion yields the
ErrServerError error with the reported reason. -/
theorem waitForDeferred_timeout_vs_failed_witness :
    WaitForDeferred
        (fun _ => .reply { Status := DeferredStatusPending, Response := none, Error := "" })
        none 1 2 =
      some (.error { Code := .ErrTimeout,
                     Message := "timeout waiting for deferred completion",
                     RetryAfter := 0, GRPCCode := 0 }, 2) ∧
    WaitForDeferred
        (fun _ => .reply { Status := DeferredStatusFailed, Response := none,
                           Error := "deferred completion expired" })
        none 1 5 =
      some (.error { Code := .ErrServerError,
                     Message := "deferred completion failed: deferred completion expired",
                     RetryAfter := 0, GRPCCode := 0 }, 0) :=
  ⟨waitForDeferred_timeout_vs_failed.1 _ (fun _ => rfl),
   waitForDeferred_timeout_vs_failed.2.1 _ "deferred completion expired" 1 5 rfl
     (by decide)⟩

/-- C6, evaluated at the failing input: the completion stays pending and the
callers context is cancelled at time 1, inside the first inter-poll wait
(poll interval 2, timeout 10). WaitForDeferred does return promptly, at time
1 rather than at the end of the sleep at time 2, but the returned error has
Code ErrUnknown — FromGRPCError sees context.Canceled, which carries no gRPC
status, and takes its non-status branch — whereas the claim requires kind
ErrCanceled. -/
theorem waitForDeferred_cancel_kind_unknown :
    WaitForDeferred
        (fun _ => .reply { Status := DeferredStatusPending, Response := none, Error := "" })
        (some 1) 2 10 =
      some (.error { Code := .ErrUnknown, Message := "context canceled",
                     RetryAfter := 0, GRPCCode := 0 }, 1) ∧
    ErrorCode.ErrUnknown ≠ ErrorCode.ErrCanceled ∧
    (1 : Nat) < 0 + 2 :=
  ⟨rfl, by decide, by decide⟩

/-- C7: Build is pure and does not mutate the builder: the builder state
returned alongside the wire request equals the input state, and building
again from that state yields a field-for-field identical wire request. -/
theorem build_pure_idempotent (r : ChatRequest) (defaultModel : String) :
    (r.Build defaultModel).2 = r ∧
    (r.Build defaultModel).1 = (((r.Build defaultModel).2).Build defaultModel).1 :=
  ⟨rfl, rfl⟩

/-- C8: the built request's model is the default exactly when the
accumulated model is empty (as it is in the zero-valued builder, where
WithModel was never called), and the accumulated model verbatim otherwise,
for every choice of default. -/
theorem build_model_defaulting (r : ChatRequest) (defaultModel : String) :
    ((r.Build defaultModel).1.Model = if r.model = "" then defaultModel else r.model) ∧
    (r.model = "" → (r.Build defaultModel).1.Model = defaultModel) ∧
    (r.model ≠ "" → (r.Build defaultModel).1.Model = r.model) ∧
    NewChatRequest.model = "" ∧
    (∀ m, (r.WithModel m).model = m) := by
  refine ⟨rfl, fun h => ?_, fun h => ?_, rfl, fun m => rfl⟩
  · show (if r.model = "" then defaultModel else r.model) = defaultModel
    rw [if_pos h]
  · show (if r.model = "" then defaultModel else r.model) = r.model
    rw [if_neg h]

/-- Witness for C8: a fresh builder takes the default model; a builder with
a model set keeps it whatever the default is. -/
theorem build_model_defaulting_witness :
    (NewChatRequest.Build "grok-3").1.Model = "grok-3" ∧
    ((NewChatRequest.WithModel "grok-4").Build "grok-3").1.Model = "grok-4" :=
  ⟨(build_model_defaulting NewChatRequest "grok-3").2.1 rfl,
   (build_model_defaulting (NewChatRequest.WithModel "grok-4") "grok-3").2.2.1 (by decide)⟩

/-- C9: every converted per-million price equals the raw fixed-point wire
field divided by exactly 10000, for all five price fields of every catalog
entry; in particular a raw price field of 250000 yields a decimal price of
25 currency units per million tokens. -/
theorem pricing_scaling (m : ProtoLanguageModel) :
    ((languageModelFromProto m).PromptTextPricing.PerMillionTokens
        = (m.PromptTextTokenPrice : Rat) / 10000) ∧
    ((languageModelFromProto m).PromptImagePricing.PerMillionTokens
        = (m.PromptImageTokenPrice : Rat) / 10000) ∧
    ((languageModelFromProto m).CachedPromptPricing.PerMillionTokens
        = (m.CachedPromptTokenPrice : Rat) / 10000) ∧
    ((languageModelFromProto m).CompletionPricing.PerMillionTokens
        = (m.CompletionTextTokenPrice : Rat) / 10000) ∧
    ((languageModelFromProto m).SearchPricing.PerMillionTokens
        = (m.SearchPrice : Rat) / 10000) ∧
    (languageModelFromProto
        { Name := "grok-4", Aliases := [], Version := "", MaxPromptLength := 131072,
          SystemFingerprint := "", Created := none, InputModalities := [.text],
          OutputModalities := [.text], PromptTextTokenPrice := 250000,
          PromptImageTokenPrice := 0, CachedPromptTokenPrice := 0,
          CompletionTextTokenPrice := 0,
          SearchPrice := 0 }).PromptTextPricing.PerMillionTokens = 25 := by
  refine ⟨rfl, rfl, rfl, rfl, rfl, ?_⟩
  show ((250000 : Int) : Rat) / 10000 = 25
  norm_num

/-- C10: wrapping preserves classification: WrapError on nil is nil, and on
any error whose unwrap chain holds an `*Error`, the result is a new `*Error`
with the same Code, RetryAfter, GRPCCode and Cause, only the message gaining
the context prefix, so retryability is unchanged. -/
theorem wrapError_preserves_classification :
    (∀ message, WrapError none message = none) ∧
    (∀ (err : GoError) (message : String) (x : Error) (cause : Option GoError),
      errorsAsXai err = some (x, cause) →
      WrapError (some err) message =
        some (.xaiE { Code := x.Code, Message := message ++ ": " ++ x.Message,
                      RetryAfter := x.RetryAfter, GRPCCode := x.GRPCCode } cause) ∧
      Error.IsRetryable { Code := x.Code, Message := message ++ ": " ++ x.Message,
                          RetryAfter := x.RetryAfter, GRPCCode := x.GRPCCode } =
        x.IsRetryable) := by
  refine ⟨fun _ => rfl, ?_⟩
  intro err message x cause h
  constructor
  · simp only [WrapError, h]
  · rfl

/-- Witness for C10: wrapping a rate-limit error nested under a fmt.Errorf
wrapper keeps code, retry-after and gRPC code while prefixing the
message. -/
theorem wrapError_preserves_classification_witness :
    WrapError
        (some (.wrapf "op failed"
          (.xaiE { Code := .ErrRateLimit, Message := "slow down",
                   RetryAfter := 5, GRPCCode := 8 } none)))
        "request" =
      some (.xaiE { Code := .ErrRateLimit, Message := "request" ++ ": " ++ "slow down",
                    RetryAfter := 5, GRPCCode := 8 } none) :=
  (wrapError_preserves_classification.2
    (.wrapf "op failed"
      (.xaiE { Code := .ErrRateLimit, Message := "slow down",
               RetryAfter := 5, GRPCCode := 8 } none))
    "request"
    { Code := .ErrRateLimit, Message := "slow down", RetryAfter := 5, GRPCCode := 8 }
    none rfl).1

end Xai
